import Mathlib

/-!
A verification development for the elastix component-registry and lifecycle
orchestration kernel (`elxElastixMain.cxx`, `elxElastixTemplate.hxx`).

The C++ kernel is shallowly embedded: the configuration object is a partial
map from (parameter key, instance index) to a component name, the component
database is a predicate telling whether a creator is registered for a
(component name, database index) pair, and the stateful orchestration code is
modelled by explicit state passing and by event traces.  External
collaborators (image file readers, the ITK optimizer internals, the log
streams) are abstracted as parameters, following the boundary drawn by the
design documentation.
-/

namespace Elastix

/-- A created component instance.  Creation via the component database only
depends on the component name, so an instance is identified by the name that
was used to create it. -/
structure Component where
  name : String
deriving DecidableEq, Repr

/-- The configuration object, restricted to what `CreateComponents` consumes:
`ReadParameter(value, key, componentnr, ...)` either finds a component name
declared for `(key, componentnr)` or reports not-found. -/
abbrev Config := String → Nat → Option String

/-- The component database reduced to its creator table: whether
`GetCreator(name, dbIndex)` returns a non-null creator. -/
abbrev DB := String → Nat → Bool

/-- Decimal rendering of a natural number, most significant digit first,
modelling the stream insertion `ostringstream << n` used by the C++ code when
it builds file names and log lines.  `decReprAux` is the recursion with an
explicit bound on the recursion depth; `n < fuel` always holds for the bound
chosen in `decRepr`, because the quotient `n / 10` strictly decreases. -/
def decReprAux : Nat → Nat → String
  | 0, _ => ""
  | fuel + 1, n =>
    if n < 10 then String.mk [Char.ofNat (48 + n)]
    else decReprAux fuel (n / 10) ++ String.mk [Char.ofNat (48 + n % 10)]

/-- Decimal rendering of `n` (see `decReprAux`). -/
def decRepr (n : Nat) : String :=
  decReprAux (n + 1) n

/-- Result of `ElastixMain::CreateComponents`: the object container that is
returned, the value of the by-reference `errorcode` argument after the call,
and the error lines written to the log. -/
structure CCOut where
  container : List Component
  errorcode : Nat
  errlog : List String
deriving DecidableEq, Repr

/-- `ElastixMain::CreateComponent`: looks up the creator for
`(name, dbIndex)`; a missing creator (or a creator returning null) raises an
exception, modelled by `none`. -/
def createComponent (db : DB) (dbIndex : Nat) (name : String) : Option Component :=
  if db name dbIndex then some ⟨name⟩ else none

/-- The log line of `CreateComponents` for a missing mandatory component. -/
def missingComponentLog (key : String) : String :=
  "ERROR: the following component has not been specified: " ++ key

/-- The log line of `CreateComponents` for a component whose creation threw. -/
def creationErrorLog (key : String) (componentnr : Nat) : String :=
  "ERROR: error occurred while creating " ++ key ++ " " ++ decRepr componentnr ++ "."

/-- The `while (found)` loop of `ElastixMain::CreateComponents`, entered after
element 0 was created from a configured name.  Starting from probe index
`componentnr`, it reads the name declared at the current index; when none is
declared the loop ends, otherwise the component is created and appended at
that index (the indices are contiguous by construction).  A failed creation
sets the errorcode to 1 and returns at once.  `fuel` bounds the number of
probes; every theorem below supplies enough fuel to reach the first
undeclared index, where the source loop terminates. -/
def ccWhile (cfg : Config) (db : DB) (dbIndex : Nat) (key : String) :
    Nat → Nat → List Component → Nat → CCOut
  | 0, _, acc, ec => ⟨acc, ec, []⟩
  | fuel + 1, componentnr, acc, ec =>
    match cfg key componentnr with
    | none => ⟨acc, ec, []⟩
    | some nm =>
      match createComponent db dbIndex nm with
      | none => ⟨acc, 1, [creationErrorLog key componentnr]⟩
      | some c => ccWhile cfg db dbIndex key fuel (componentnr + 1) (acc ++ [c]) ec

/-- `ElastixMain::CreateComponents(key, defaultComponentName, errorcode,
mandatoryComponent)`.  `ec` is the caller's value of the by-reference
`errorcode` variable on entry.  Mirrors the source: read the name declared at
instance 0; if nothing is declared and the default is empty, either fail
(mandatory) or return an empty container with `errorcode = 0`; otherwise
create instance 0 from the declared name or the default, and keep probing
instances 1, 2, ... while names are found. -/
def createComponents (cfg : Config) (db : DB) (dbIndex : Nat)
    (key defaultComponentName : String) (ec : Nat) (mandatoryComponent : Bool)
    (fuel : Nat) : CCOut :=
  match cfg key 0 with
  | none =>
    if defaultComponentName = "" then
      if mandatoryComponent then ⟨[], 1, [missingComponentLog key]⟩
      else ⟨[], 0, []⟩
    else
      match createComponent db dbIndex defaultComponentName with
      | none => ⟨[], 1, [creationErrorLog key 0]⟩
      | some c => ⟨[c], ec, []⟩
  | some nm =>
    match createComponent db dbIndex nm with
    | none => ⟨[], 1, [creationErrorLog key 0]⟩
    | some c => ccWhile cfg db dbIndex key fuel 1 [c] ec

/-- The pluggable component roles of the pipeline (closed set). -/
inductive Role
  | Registration
  | Transform
  | ImageSampler
  | Metric
  | Interpolator
  | Optimizer
  | FixedImagePyramid
  | MovingImagePyramid
  | ResampleInterpolator
  | Resampler
deriving DecidableEq, Repr

/-- A receiver of a lifecycle-stage call: the configuration object, or the
component at a given instance index of a given role. -/
inductive Target
  | config
  | comp (r : Role) (i : Nat)
deriving DecidableEq, Repr

/-- The calls one `for` loop of `CallInEachComponent` makes for role `r`,
where `n r` is the number of instances in the container of `r`. -/
def roleCalls (n : Role → Nat) (r : Role) : List Target :=
  (List.range (n r)).map (Target.comp r)

/-- `ElastixTemplate::CallInEachComponent`: the configuration object first,
then ten `for` loops, transliterated in the textual order of the source. -/
def callInEachComponent (n : Role → Nat) : List Target :=
  Target.config ::
    (roleCalls n .Registration ++ roleCalls n .Transform ++
     roleCalls n .ImageSampler ++ roleCalls n .Metric ++
     roleCalls n .Interpolator ++ roleCalls n .Optimizer ++
     roleCalls n .FixedImagePyramid ++ roleCalls n .MovingImagePyramid ++
     roleCalls n .ResampleInterpolator ++ roleCalls n .Resampler)

/-- `ElastixTemplate::CallInEachComponentInt`: the `int`-returning variant;
its traversal is written out in the source with the same eleven steps. -/
def callInEachComponentInt (n : Role → Nat) : List Target :=
  Target.config ::
    (roleCalls n .Registration ++ roleCalls n .Transform ++
     roleCalls n .ImageSampler ++ roleCalls n .Metric ++
     roleCalls n .Interpolator ++ roleCalls n .Optimizer ++
     roleCalls n .FixedImagePyramid ++ roleCalls n .MovingImagePyramid ++
     roleCalls n .ResampleInterpolator ++ roleCalls n .Resampler)

/-- Component calls of `ElastixTemplate::BeforeAll`: one
`CallInEachComponentInt` pass for `BeforeAllBase`, one for `BeforeAll`. -/
def beforeAllDispatch (n : Role → Nat) : List Target :=
  callInEachComponentInt n ++ callInEachComponentInt n

/-- Component calls of `ElastixTemplate::BeforeRegistration`: one
`CallInEachComponent` pass for the base stage, one for the main stage. -/
def beforeRegistrationDispatch (n : Role → Nat) : List Target :=
  callInEachComponent n ++ callInEachComponent n

/-- Component calls of `ElastixTemplate::BeforeEachResolution`. -/
def beforeEachResolutionDispatch (n : Role → Nat) : List Target :=
  callInEachComponent n ++ callInEachComponent n

/-- Component calls of `ElastixTemplate::AfterEachIteration`. -/
def afterEachIterationDispatch (n : Role → Nat) : List Target :=
  callInEachComponent n ++ callInEachComponent n

/-- Component calls of `ElastixTemplate::AfterEachResolution`. -/
def afterEachResolutionDispatch (n : Role → Nat) : List Target :=
  callInEachComponent n ++ callInEachComponent n

/-- Component calls of `ElastixTemplate::AfterRegistration`. -/
def afterRegistrationDispatch (n : Role → Nat) : List Target :=
  callInEachComponent n ++ callInEachComponent n

/-- The role traversal order stated by the specification. -/
def specRoleOrder : List Role :=
  [.Registration, .Transform, .ImageSampler, .Metric, .Interpolator,
   .Optimizer, .FixedImagePyramid, .MovingImagePyramid,
   .ResampleInterpolator, .Resampler]

/-- The dispatch order stated by the specification: the configuration first,
then every role in `specRoleOrder`, and within a role the instance indices in
increasing order. -/
def specDispatchOrder (n : Role → Nat) : List Target :=
  Target.config ::
    specRoleOrder.flatMap (fun r => (List.range (n r)).map (Target.comp r))

/-- The inputs of `ElastixMain::Run` and `ElastixMain::InitDBIndex`.  The
image-header probing and parameter-file reads that determine the pixel types
and dimensionalities are external-collaborator calls; their outcome is
abstracted into the `fixedDim`/`movingDim` fields (0 meaning the
dimensionality could not be determined, exactly the value the member variable
keeps in the source when every read fails).  `getIndex` is
`ComponentDatabase::GetIndex`, with 0 the reserved not-found index.
`baseRunExitCode` is the value of `errorCode` after the call
`elastixBase.Run()` and its surrounding catch blocks. -/
structure RunEnv where
  configInitialized : Bool
  fixedPixelType : String
  fixedDim : Nat
  movingPixelType : String
  movingDim : Nat
  getIndex : String → Nat → String → Nat → Nat
  cfg : Config
  db : DB
  fuel : Nat
  baseRunExitCode : Nat

/-- `ElastixMain::InitDBIndex`: returns the error code and the database
index that was stored in `m_DBIndex`.  The branch structure follows the
source: an uninitialized configuration is fatal; a fixed or moving image
dimensionality that remains 0 is fatal; a `GetIndex` result of 0 is fatal. -/
def initDBIndex (env : RunEnv) : Nat × Nat :=
  if env.configInitialized then
    if env.fixedDim = 0 then (1, 0)
    else if env.movingDim = 0 then (1, 0)
    else
      let idx := env.getIndex env.fixedPixelType env.fixedDim
                   env.movingPixelType env.movingDim
      if idx = 0 then (1, 0) else (0, idx)
  else (1, 0)

/-- State threaded through the component-creation phase of `Run`: the
containers handed to the `Set...Container` calls, in call order, and the
current value of the single `errorCode` variable. -/
structure CreatePhase where
  containers : List (String × List Component)
  errorcode : Nat
deriving DecidableEq, Repr

/-- One statement of the creation phase of `Run`:
`elastixBase.Set...Container(this->CreateComponents(key, default, errorCode,
mandatory))`. -/
def createStep (cfg : Config) (db : DB) (dbIndex fuel : Nat) (st : CreatePhase)
    (key defaultComponentName : String) (mandatoryComponent : Bool) : CreatePhase :=
  let out := createComponents cfg db dbIndex key defaultComponentName
               st.errorcode mandatoryComponent fuel
  ⟨st.containers ++ [(key, out.container)], out.errorcode⟩

/-- The ten `CreateComponents` calls of `ElastixMain::Run`, in source order,
with the defaults and mandatory flags of the source (only `ImageSampler` is
not mandatory; `ImageSampler`, `Metric`, `Optimizer` and `Transform` have no
default). -/
def runCreateAll (cfg : Config) (db : DB) (dbIndex fuel : Nat) (ec : Nat) : CreatePhase :=
  let s0 : CreatePhase := ⟨[], ec⟩
  let s1 := createStep cfg db dbIndex fuel s0 "Registration" "MultiResolutionRegistration" true
  let s2 := createStep cfg db dbIndex fuel s1 "FixedImagePyramid" "FixedSmoothingImagePyramid" true
  let s3 := createStep cfg db dbIndex fuel s2 "MovingImagePyramid" "MovingSmoothingImagePyramid" true
  let s4 := createStep cfg db dbIndex fuel s3 "ImageSampler" "" false
  let s5 := createStep cfg db dbIndex fuel s4 "Interpolator" "BSplineInterpolator" true
  let s6 := createStep cfg db dbIndex fuel s5 "Metric" "" true
  let s7 := createStep cfg db dbIndex fuel s6 "Optimizer" "" true
  let s8 := createStep cfg db dbIndex fuel s7 "ResampleInterpolator" "FinalBSplineInterpolator" true
  let s9 := createStep cfg db dbIndex fuel s8 "Resampler" "DefaultResampler" true
  createStep cfg db dbIndex fuel s9 "Transform" "" true

/-- Result of `ElastixMain::Run`: the exit code, the containers that were
populated (empty when `Run` returned before the creation phase), and whether
the top-level `Elastix` component was created. -/
structure RunOut where
  exitCode : Nat
  createdContainers : List (String × List Component)
  elastixCreated : Bool
deriving DecidableEq, Repr

/-- `ElastixMain::Run`: initialize the database index (returning its error
code at once on failure), create the `Elastix` component (exit code 1 when
that throws), populate the ten component containers threading the single
`errorCode` variable, check that variable once, and otherwise run the
orchestration, whose caught outcome is `baseRunExitCode`. -/
def run (env : RunEnv) : RunOut :=
  let (ec, dbIndex) := initDBIndex env
  if ec ≠ 0 then ⟨ec, [], false⟩
  else
    match createComponent env.db dbIndex "Elastix" with
    | none => ⟨1, [], false⟩
    | some _ =>
      let c := runCreateAll env.cfg env.db dbIndex env.fuel 0
      if c.errorcode ≠ 0 then ⟨1, c.containers, true⟩
      else ⟨env.baseRunExitCode, c.containers, true⟩

/-- The callbacks fired from inside the registration component's
multi-resolution loop, as observed by `ElastixTemplate`. -/
inductive LoopEvent
  | beforeEachResolution
  | afterEachIteration
  | afterEachResolution
deriving DecidableEq, Repr

/-- Effect of each `ElastixTemplate` callback on `m_IterationCounter`:
`BeforeEachResolution` assigns 0, `AfterEachIteration` ends with
`m_IterationCounter++`, `AfterEachResolution` leaves it unchanged.  The
counter is modelled as an integer so that non-negativity is a theorem rather
than a typing artifact. -/
def counterStep : Int → LoopEvent → Int
  | _, .beforeEachResolution => 0
  | c, .afterEachIteration => c + 1
  | c, .afterEachResolution => c

/-- Runs a sequence of callbacks on the iteration counter, returning the
final counter and the counter values observed inside each
`AfterEachIteration` body (the value printed in the `1:ItNr` column and used
for the parameter-snapshot file name, read before the final increment). -/
def counterRun : Int → List LoopEvent → Int × List Int
  | c, [] => (c, [])
  | c, e :: es =>
    let obs : List Int := if e = .afterEachIteration then [c] else []
    let next := counterRun (counterStep c e) es
    (next.1, obs ++ next.2)

/-- The callbacks one resolution level with `m` optimizer iterations fires:
`BeforeEachResolution` once, `AfterEachIteration` after every completed step,
`AfterEachResolution` once at the end of the level. -/
def levelTrace (m : Nat) : List LoopEvent :=
  LoopEvent.beforeEachResolution ::
    (List.replicate m LoopEvent.afterEachIteration ++ [LoopEvent.afterEachResolution])

/-- The callbacks of a whole registration run whose level `l` executes
`iters.get l` optimizer iterations. -/
def multiResTrace (iters : List Nat) : List LoopEvent :=
  iters.flatMap levelTrace

/-- Events of the coarse execution traces of `ElastixTemplate::Run` and
`ElastixTemplate::ApplyTransform`. -/
inductive ExEvent
  | configureComponents (coupled : Bool)
  | beforeAllStage
  | beforeAllTransformixBase
  | beforeAllTransformixComp (r : Role)
  | beforeAllTransformixConfig
  | loadImages
  | beforeRegistrationStage
  | startRegistration
  | beforeEachResolutionStage
  | afterEachIterationStage
  | afterEachResolutionStage
  | afterRegistrationStage
  | setFinalTransform
  | readFromFile (r : Role)
  | transformPoints
  | writeResultImage
deriving DecidableEq, Repr

/-- The calls `ElastixTemplate::BeforeAllTransformix` makes, in source
order: `BeforeAllTransformixBase` (the parameter checks in `ElastixBase`),
then the `BeforeAllTransformix` methods of the resample interpolator, the
resampler and the transform, then the configuration's. -/
def beforeAllTransformixTrace : List ExEvent :=
  [.beforeAllTransformixBase,
   .beforeAllTransformixComp .ResampleInterpolator,
   .beforeAllTransformixComp .Resampler,
   .beforeAllTransformixComp .Transform,
   .beforeAllTransformixConfig]

/-- Event trace and return value of `ElastixTemplate::ApplyTransform`.
`beforeAllTransformixExitCode` is the aggregate `returndummy` of
`BeforeAllTransformix` (external component checks); `hasMovingImage` tells
whether an input image was supplied or named, which guards both the loading
step and the final resampling/writing step. -/
def applyTransform (beforeAllTransformixExitCode : Nat) (hasMovingImage : Bool) :
    List ExEvent × Nat :=
  if beforeAllTransformixExitCode ≠ 0 then
    (ExEvent.configureComponents true :: beforeAllTransformixTrace,
     beforeAllTransformixExitCode)
  else
    ((ExEvent.configureComponents true :: beforeAllTransformixTrace) ++
      (if hasMovingImage then [ExEvent.loadImages] else []) ++
      [ExEvent.readFromFile .ResampleInterpolator,
       ExEvent.readFromFile .Resampler,
       ExEvent.readFromFile .Transform,
       ExEvent.transformPoints] ++
      (if hasMovingImage then [ExEvent.writeResultImage] else []), 0)

/-- Event trace of the success path of `ElastixTemplate::Run`, the
registration loop firing the per-level and per-iteration callbacks of
`multiResTrace` (here only their stage identity matters). -/
def runEventTrace (iters : List Nat) : List ExEvent :=
  [ExEvent.configureComponents true, ExEvent.beforeAllStage,
   ExEvent.loadImages, ExEvent.beforeRegistrationStage,
   ExEvent.startRegistration] ++
  (iters.flatMap fun m =>
    ExEvent.beforeEachResolutionStage ::
      (List.replicate m ExEvent.afterEachIterationStage ++
       [ExEvent.afterEachResolutionStage])) ++
  [ExEvent.afterRegistrationStage, ExEvent.setFinalTransform,
   ExEvent.configureComponents false]

/-- The state of an `ElastixTemplate` aggregate that matters for the
decoupling claim: the component containers (per role), which components hold
a back-reference to the orchestrator (`SetElastix(This)` versus
`SetElastix(0)`), and the designated final transform. -/
structure TState where
  containers : Role → List Component
  backRef : Role → Nat → Bool
  finalTransform : Option Component

/-- `ElastixTemplate::ConfigureComponents(This)` / `(0)`: every instance in
every container receives the back-reference (or has it cleared). -/
def configureComponentsState (coupled : Bool) (s : TState) : TState :=
  { s with backRef := fun r i => if i < (s.containers r).length then coupled else s.backRef r i }

/-- State-level model of `ElastixTemplate::Run`: couple the components, call
`BeforeAll` (returning its nonzero aggregate at once), run the registration
(a thrown exception propagates, modelled by `none`), designate the first
transform instance as the final transform, decouple every component, return
0.  `beforeAllExitCode` and `registrationThrows` abstract the component
checks and the numerical loop, which are external to the orchestrator. -/
def templateRun (s : TState) (beforeAllExitCode : Nat) (registrationThrows : Bool) :
    Option Nat × TState :=
  let s1 := configureComponentsState true s
  if beforeAllExitCode ≠ 0 then (some beforeAllExitCode, s1)
  else if registrationThrows then (none, s1)
  else
    let s2 := { s1 with finalTransform := (s1.containers .Transform).head? }
    (some 0, configureComponentsState false s2)

/-- A subsequently constructed orchestrator (a fresh `ElastixMain`) that is
given a previously produced transform as its initial transform
(`SetInitialTransform`); it holds the transform itself, not the orchestrator
that produced it. -/
structure ChainedMain where
  initialTransform : Option Component
deriving DecidableEq, Repr

/-- Constructing the follow-up orchestrator from a produced final transform. -/
def mkChainedMain (t : Component) : ChainedMain :=
  ⟨some t⟩

/-- The zero-printing loop of `ElastixTemplate::AfterEachIteration`:
`border` starts at 1000000 and while `border > 1`, either a `"0"` is printed
and `border /= 10`, or `border = 1` ends the loop.  The first argument
bounds the recursion depth: starting from border 1000000 the loop body runs
at most six times before `border` reaches 1, so the depth 7 used in
`makeIterationString` is never exhausted. -/
def padLoopAux : Nat → Nat → Nat → String
  | 0, _, _ => ""
  | depth + 1, border, counter =>
    if 1 < border then
      if counter < border then "0" ++ padLoopAux depth (border / 10) counter
      else ""
    else ""

/-- The `makeIterationString` stream of `AfterEachIteration`: the padding
zeros followed by the decimal rendering of the iteration counter. -/
def makeIterationString (counter : Nat) : String :=
  padLoopAux 7 1000000 counter ++ decRepr counter

/-- The per-iteration snapshot file name built in `AfterEachIteration`:
`<out>TransformParameters.<elastixLevel>.R<resolutionLevel>.It<iterationString>.txt`. -/
def iterationSnapshotFileName (outDir : String)
    (elastixLevel resolutionLevel iterationCounter : Nat) : String :=
  outDir ++ "TransformParameters." ++ decRepr elastixLevel ++ ".R" ++
    decRepr resolutionLevel ++ ".It" ++ makeIterationString iterationCounter ++ ".txt"

/-- The specification's description of the iteration field: the decimal
rendering of the counter, left-padded with zeros to exactly 7 digits. -/
def sevenDigitPad (n : Nat) : String :=
  String.mk (List.replicate (7 - (decRepr n).length) '0') ++ decRepr n

/-- A configuration declaring Transform instance names at indices 0 and 1,
none at index 2, and one more at index 3 (after the gap). -/
def cfgGapExample : Config := fun key nr =>
  if key = "Transform" then
    if nr = 0 then some "TransformA"
    else if nr = 1 then some "TransformB"
    else if nr = 3 then some "TransformC"
    else none
  else none

/-- A database registering creators for the three example transforms at
database index 1. -/
def dbGapExample : DB := fun nm idx =>
  idx == 1 && (nm == "TransformA" || nm == "TransformB" || nm == "TransformC")

/-- A configuration whose Registration instance 0 names a component that has
no registered creator, whose ImageSampler is not configured at all, and whose
remaining mandatory roles are properly named. -/
def cfgErase : Config := fun key nr =>
  if nr = 0 then
    if key = "Registration" then some "BadRegistration"
    else if key = "Metric" then some "GoodMetric"
    else if key = "Optimizer" then some "GoodOptimizer"
    else if key = "Transform" then some "GoodTransform"
    else none
  else none

/-- A database with creators (at index 1) for the `Elastix` aggregate, every
default component name used by `Run`, and the named example components, but
not for `BadRegistration`. -/
def dbErase : DB := fun nm idx =>
  idx == 1 &&
    (nm == "Elastix" || nm == "FixedSmoothingImagePyramid" ||
     nm == "MovingSmoothingImagePyramid" || nm == "BSplineInterpolator" ||
     nm == "GoodMetric" || nm == "GoodOptimizer" ||
     nm == "FinalBSplineInterpolator" || nm == "DefaultResampler" ||
     nm == "GoodTransform")

/-- The `Run` inputs for the error-code erasure scenario: the dispatch index
resolves to 1, the Registration component fails to create, and the
orchestration itself would succeed. -/
def envErase : RunEnv :=
  { configInitialized := true
    fixedPixelType := "float"
    fixedDim := 3
    movingPixelType := "float"
    movingDim := 3
    getIndex := fun _ _ _ _ => 1
    cfg := cfgErase
    db := dbErase
    fuel := 4
    baseRunExitCode := 0 }

/-- `Run` inputs whose fixed image dimensionality could not be determined. -/
def envNoDim : RunEnv :=
  { envErase with fixedDim := 0 }

/-- The registration-loop events that must never occur while applying a
transform without optimization. -/
def regLoopEvents : List ExEvent :=
  [.startRegistration, .beforeEachResolutionStage,
   .afterEachIterationStage, .afterEachResolutionStage]

/-- Claim C1: when the configuration declares no name at instance 0 for the
role and the default name is empty, a mandatory `CreateComponents` call sets
the error code to 1, logs an error naming the missing role, and creates
nothing; a non-mandatory call returns an empty container with error code 0
and no error output. -/
theorem createComponents_missing_role (cfg : Config) (db : DB) (dbIndex : Nat)
    (key : String) (ec fuel : Nat) (mandatoryComponent : Bool)
    (h : cfg key 0 = none) :
    (mandatoryComponent = true →
      createComponents cfg db dbIndex key "" ec mandatoryComponent fuel =
        ⟨[], 1, [missingComponentLog key]⟩) ∧
    (mandatoryComponent = false →
      createComponents cfg db dbIndex key "" ec mandatoryComponent fuel =
        ⟨[], 0, []⟩) ∧
    missingComponentLog key =
      "ERROR: the following component has not been specified: " ++ key := by
  refine ⟨?_, ?_, rfl⟩ <;> intro hm <;> subst hm <;> simp [createComponents, h]

/-- Witness for C1 at a concrete configuration without a Metric entry. -/
theorem createComponents_missing_role_witness :
    createComponents (fun _ _ => none) (fun _ _ => false) 1 "Metric" "" 5 true 3 =
      ⟨[], 1, [missingComponentLog "Metric"]⟩ ∧
    createComponents (fun _ _ => none) (fun _ _ => false) 1 "Metric" "" 5 false 3 =
      ⟨[], 0, []⟩ :=
  ⟨(createComponents_missing_role _ _ 1 "Metric" 5 3 true rfl).1 rfl,
   (createComponents_missing_role _ _ 1 "Metric" 5 3 false rfl).2.1 rfl⟩

/-- Claim C3: every lifecycle-stage dispatch performs its passes over the
components in the same fixed order: the configuration first, then the roles
Registration, Transform, ImageSampler, Metric, Interpolator, Optimizer,
FixedImagePyramid, MovingImagePyramid, ResampleInterpolator, Resampler, and
within a role the instance indices in increasing order. -/
theorem stage_dispatch_fixed_order (n : Role → Nat) :
    beforeAllDispatch n = specDispatchOrder n ++ specDispatchOrder n ∧
    beforeRegistrationDispatch n = specDispatchOrder n ++ specDispatchOrder n ∧
    beforeEachResolutionDispatch n = specDispatchOrder n ++ specDispatchOrder n ∧
    afterEachIterationDispatch n = specDispatchOrder n ++ specDispatchOrder n ∧
    afterEachResolutionDispatch n = specDispatchOrder n ++ specDispatchOrder n ∧
    afterRegistrationDispatch n = specDispatchOrder n ++ specDispatchOrder n := by
  have hspec : specDispatchOrder n = callInEachComponent n := by
    simp [specDispatchOrder, specRoleOrder, callInEachComponent, roleCalls,
      List.flatMap_cons, List.flatMap_nil, List.append_assoc]
  have hint : callInEachComponentInt n = callInEachComponent n := rfl
  refine ⟨?_, ?_, ?_, ?_, ?_, ?_⟩ <;>
    simp [beforeAllDispatch, beforeRegistrationDispatch,
      beforeEachResolutionDispatch, afterEachIterationDispatch,
      afterEachResolutionDispatch, afterRegistrationDispatch, hspec, hint]

/-- The probe loop of `CreateComponents`, run with enough fuel to reach the
first undeclared instance index, appends exactly the components declared at
the contiguous indices from its starting probe index up to that gap. -/
theorem ccWhile_eq_of_gap (cfg : Config) (db : DB) (dbIndex : Nat) (key : String)
    (gap : Nat) (hgap : cfg key gap = none)
    (hdecl : ∀ i, i < gap → ∃ nm, cfg key i = some nm ∧ db nm dbIndex = true) :
    ∀ fuel componentnr acc ec, componentnr ≤ gap → gap - componentnr ≤ fuel →
      ccWhile cfg db dbIndex key fuel componentnr acc ec =
        ⟨acc ++ (List.range' componentnr (gap - componentnr)).map
            (fun i => Component.mk ((cfg key i).getD "")), ec, []⟩ := by
  intro fuel
  induction fuel with
  | zero =>
    intro componentnr acc ec hle hfu
    have h0 : gap - componentnr = 0 := by omega
    simp [ccWhile, h0]
  | succ fuel ih =>
    intro componentnr acc ec hle hfu
    by_cases hc : componentnr = gap
    · subst hc
      simp [ccWhile, hgap]
    · have hlt : componentnr < gap := by omega
      obtain ⟨nm, hnm, hdb⟩ := hdecl componentnr hlt
      have hstep : gap - componentnr = (gap - (componentnr + 1)) + 1 := by omega
      rw [ccWhile, hnm]
      simp only [createComponent, hdb, if_pos]
      rw [ih (componentnr + 1) (acc ++ [Component.mk nm]) ec (by omega) (by omega)]
      rw [hstep, List.range'_succ, List.map_cons, hnm]
      simp

/-- Claim C2: with names declared contiguously from instance 0 and a first
undeclared index `gap`, and with every declared name creatable, the container
built by `CreateComponents` holds exactly the components of indices
`0 .. gap-1`, so its size is exactly `gap` and every element comes from an
index before the gap: names declared after the gap are never instantiated. -/
theorem createComponents_stops_at_gap (cfg : Config) (db : DB) (dbIndex : Nat)
    (key defaultComponentName : String) (ec fuel gap : Nat)
    (mandatoryComponent : Bool) (hpos : 0 < gap)
    (hgap : cfg key gap = none)
    (hdecl : ∀ i, i < gap → ∃ nm, cfg key i = some nm ∧ db nm dbIndex = true)
    (hfuel : gap ≤ fuel) :
    (createComponents cfg db dbIndex key defaultComponentName ec
        mandatoryComponent fuel).container =
      (List.range gap).map (fun i => Component.mk ((cfg key i).getD "")) ∧
    (createComponents cfg db dbIndex key defaultComponentName ec
        mandatoryComponent fuel).container.length = gap ∧
    (∀ c, c ∈ (createComponents cfg db dbIndex key defaultComponentName ec
        mandatoryComponent fuel).container → ∃ i, i < gap ∧ cfg key i = some c.name) := by
  obtain ⟨nm0, hnm0, hdb0⟩ := hdecl 0 hpos
  have hmain : (createComponents cfg db dbIndex key defaultComponentName ec
      mandatoryComponent fuel).container =
      (List.range gap).map (fun i => Component.mk ((cfg key i).getD "")) := by
    rw [createComponents, hnm0]
    simp only [createComponent, hdb0, if_pos]
    rw [ccWhile_eq_of_gap cfg db dbIndex key gap hgap hdecl fuel 1 [⟨nm0⟩] ec
      (by omega) (by omega)]
    have hsucc : gap = (gap - 1) + 1 := by omega
    rw [List.range_eq_range', hsucc, List.range'_succ, List.map_cons, hnm0]
    simp
  refine ⟨hmain, by rw [hmain]; simp, ?_⟩
  intro c hc
  rw [hmain] at hc
  simp only [List.mem_map, List.mem_range] at hc
  obtain ⟨i, hi, rfl⟩ := hc
  obtain ⟨nm, hnm, -⟩ := hdecl i hi
  exact ⟨i, hi, by simp [hnm]⟩

/-- Witness for C2: Transform names at indices 0, 1 and 3, none at 2; the
container has exactly the two components of indices 0 and 1, and the name
declared after the gap is not instantiated. -/
theorem createComponents_stops_at_gap_witness :
    (createComponents cfgGapExample dbGapExample 1 "Transform" "" 0 true 10).container =
      [⟨"TransformA"⟩, ⟨"TransformB"⟩] ∧
    (createComponents cfgGapExample dbGapExample 1 "Transform" "" 0 true 10).container.length = 2 ∧
    Component.mk "TransformC" ∉
      (createComponents cfgGapExample dbGapExample 1 "Transform" "" 0 true 10).container := by
  have h := createComponents_stops_at_gap cfgGapExample dbGapExample 1
    "Transform" "" 0 10 2 true (by decide) (by decide)
    (by
      intro i hi
      interval_cases i
      · exact ⟨"TransformA", rfl, rfl⟩
      · exact ⟨"TransformB", rfl, rfl⟩)
    (by decide)
  refine ⟨?_, h.2.1, ?_⟩
  · rw [h.1]; decide
  · rw [h.1]; decide

/-- Claim C5: when the dispatch index cannot be resolved — a fixed or moving
image dimensionality that remains 0, or a not-found index 0 from the
component database for the pixel-type/dimension four-tuple — `Run` returns
exit code 1 with no container populated and no component created. -/
theorem run_aborts_on_unresolved_dispatch (env : RunEnv)
    (hinit : env.configInitialized = true)
    (h : env.fixedDim = 0 ∨ env.movingDim = 0 ∨
        env.getIndex env.fixedPixelType env.fixedDim env.movingPixelType
          env.movingDim = 0) :
    run env = ⟨1, [], false⟩ := by
  rcases h with h | h | h
  · simp [run, initDBIndex, hinit, h]
  · by_cases hf : env.fixedDim = 0 <;> simp [run, initDBIndex, hinit, h, hf]
  · by_cases hf : env.fixedDim = 0
    · simp [run, initDBIndex, hinit, hf]
    · by_cases hm : env.movingDim = 0 <;>
        simp [run, initDBIndex, hinit, hf, hm, h]

/-- Witness for C5 at inputs whose fixed dimensionality is undetermined. -/
theorem run_aborts_on_unresolved_dispatch_witness :
    run envNoDim = ⟨1, [], false⟩ :=
  run_aborts_on_unresolved_dispatch envNoDim rfl (Or.inl rfl)

/-- Claim C10: an absent, non-mandatory, defaultless role makes
`CreateComponents` assign 0 to the shared error code unconditionally; since
`Run` threads one error-code variable through all ten creations and checks it
only once at the end, a Registration creation failure is erased by the absent
ImageSampler and `Run` proceeds as if all components were created, returning
the orchestration's own exit code. -/
theorem errorcode_erased_by_nonmandatory_role :
    (∀ (cfg : Config) (db : DB) (dbIndex : Nat) (key : String) (ec fuel : Nat),
      cfg key 0 = none →
      createComponents cfg db dbIndex key "" ec false fuel = ⟨[], 0, []⟩) ∧
    (createComponents cfgErase dbErase 1 "Registration"
        "MultiResolutionRegistration" 0 true 4).errorcode = 1 ∧
    (runCreateAll cfgErase dbErase 1 4 0).errorcode = 0 ∧
    (run envErase).exitCode = 0 ∧
    (run envErase).elastixCreated = true := by
  refine ⟨?_, by decide, by decide, by decide, by decide⟩
  intro cfg db dbIndex key ec fuel h
  simp [createComponents, h]

/-- Witness for C10 instantiating the unconditional error-code reset at a
concrete absent ImageSampler role with a nonzero incoming error code. -/
theorem errorcode_erased_by_nonmandatory_role_witness :
    createComponents cfgErase dbErase 1 "ImageSampler" "" 7 false 4 =
      ⟨[], 0, []⟩ ∧
    (run envErase).exitCode = 0 :=
  ⟨errorcode_erased_by_nonmandatory_role.1 cfgErase dbErase 1 "ImageSampler" 7 4 rfl,
   errorcode_erased_by_nonmandatory_role.2.2.2.1⟩

/-- Running the counter over a concatenation of callback sequences threads
the counter and concatenates the observations. -/
theorem counterRun_append (xs ys : List LoopEvent) :
    ∀ c : Int, counterRun c (xs ++ ys) =
      ((counterRun (counterRun c xs).1 ys).1,
       (counterRun c xs).2 ++ (counterRun (counterRun c xs).1 ys).2) := by
  induction xs with
  | nil => intro c; simp [counterRun]
  | cons e es ih =>
    intro c
    simp [counterRun, ih (counterStep c e), List.append_assoc]

/-- A block of `m` consecutive `AfterEachIteration` callbacks observes the
incoming counter value and its next `m - 1` successors, and leaves the
counter increased by `m`. -/
theorem counterRun_iterations (m : Nat) :
    ∀ c : Int, counterRun c (List.replicate m .afterEachIteration) =
      (c + m, (List.range m).map (fun k : Nat => c + k)) := by
  induction m with
  | zero => intro c; simp [counterRun]
  | succ m ih =>
    intro c
    rw [List.replicate_succ]
    show ((counterRun (c + 1) (List.replicate m .afterEachIteration)).1,
        [c] ++ (counterRun (c + 1) (List.replicate m .afterEachIteration)).2) = _
    rw [ih (c + 1)]
    rw [Prod.mk.injEq]
    constructor
    · push_cast
      ring
    · rw [List.range_succ_eq_map, List.map_cons, List.map_map]
      rw [List.singleton_append, Nat.cast_zero, add_zero]
      congr 1
      apply List.map_congr_left
      intro a _
      simp only [Function.comp_apply]
      push_cast
      ring

/-- Claim C4: over any schedule of resolution levels (level `l` running
`iters.get l` optimizer iterations) and any incoming counter value, the
values of `m_IterationCounter` observed inside the successive
`AfterEachIteration` callbacks are, per level, `0, 1, ..., m-1`: the `k`-th
`AfterEachIteration` of a level observes `k - 1`, and no observed value is
negative. -/
theorem iteration_counter_per_level (iters : List Nat) (c0 : Int) :
    (counterRun c0 (multiResTrace iters)).2 =
      iters.flatMap (fun m => (List.range m).map (fun k : Nat => (k : Int))) ∧
    ∀ x ∈ (counterRun c0 (multiResTrace iters)).2, 0 ≤ x := by
  have main : ∀ (ls : List Nat) (c : Int),
      (counterRun c (multiResTrace ls)).2 =
        ls.flatMap (fun m => (List.range m).map (fun k : Nat => (k : Int))) := by
    intro ls
    induction ls with
    | nil => intro c; simp [multiResTrace, counterRun]
    | cons m rest ih =>
      intro c
      have hsplit : multiResTrace (m :: rest) = levelTrace m ++ multiResTrace rest := by
        simp [multiResTrace]
      have hlev : counterRun c (levelTrace m) =
          ((m : Int), (List.range m).map (fun k : Nat => (k : Int))) := by
        show counterRun c (LoopEvent.beforeEachResolution ::
          (List.replicate m .afterEachIteration ++ [.afterEachResolution])) = _
        show ((counterRun 0 (List.replicate m .afterEachIteration ++
            [.afterEachResolution])).1,
          [] ++ (counterRun 0 (List.replicate m .afterEachIteration ++
            [.afterEachResolution])).2) = _
        rw [counterRun_append, counterRun_iterations m 0]
        simp [counterRun, counterStep]
      rw [hsplit, counterRun_append, hlev]
      rw [List.flatMap_cons]
      simp only []
      rw [ih ((m : Int), (List.range m).map (fun k : Nat => (k : Int))).1]
  refine ⟨main iters c0, ?_⟩
  intro x hx
  rw [main iters c0] at hx
  rw [List.mem_flatMap] at hx
  obtain ⟨m, -, hx⟩ := hx
  rw [List.mem_map] at hx
  obtain ⟨k, -, rfl⟩ := hx
  exact Int.natCast_nonneg k

/-- Witness for C4 at a concrete schedule of two levels with 2 and 3
iterations: the observed counter values restart from 0 at each level. -/
theorem iteration_counter_per_level_witness :
    (counterRun 0 (multiResTrace [2, 3])).2 = ([0, 1, 0, 1, 2] : List Int) ∧
    (0 : Int) ≤ 1 := by
  have h := iteration_counter_per_level [2, 3] 0
  refine ⟨?_, h.2 1 ?_⟩
  · rw [h.1]
    decide
  · rw [h.1]
    decide

/-- Counterexample to C6 as stated: `ApplyTransform` does not execute the
`BeforeAll` lifecycle stage (the stage `Run` dispatches across all
components); even on the success path with an input image, no
`BeforeAll`-stage event occurs in its trace — the only validation it runs is
`BeforeAllTransformix`. -/
theorem applyTransform_no_beforeAll_stage :
    ExEvent.beforeAllStage ∉ (applyTransform 0 true).1 := by
  decide

/-- Claim C6 (amended): `ApplyTransform` executes, in order, the apply-only
validation `BeforeAllTransformix` (base parameter checks, then the
`BeforeAllTransformix` hooks of ResampleInterpolator, Resampler and
Transform, then the configuration's), then input loading when an input image
is available, then the `ReadFromFile` hooks of ResampleInterpolator,
Resampler and Transform, then point transformation, then result-image
resampling and writing; and in no case does any registration-loop event
(`StartRegistration`, `BeforeEachResolution`, `AfterEachIteration`,
`AfterEachResolution`) occur in its trace. -/
theorem applyTransform_staged_sequence :
    (applyTransform 0 true =
      ([.configureComponents true, .beforeAllTransformixBase,
        .beforeAllTransformixComp .ResampleInterpolator,
        .beforeAllTransformixComp .Resampler,
        .beforeAllTransformixComp .Transform,
        .beforeAllTransformixConfig, .loadImages,
        .readFromFile .ResampleInterpolator, .readFromFile .Resampler,
        .readFromFile .Transform, .transformPoints, .writeResultImage], 0)) ∧
    (applyTransform 0 false =
      ([.configureComponents true, .beforeAllTransformixBase,
        .beforeAllTransformixComp .ResampleInterpolator,
        .beforeAllTransformixComp .Resampler,
        .beforeAllTransformixComp .Transform,
        .beforeAllTransformixConfig,
        .readFromFile .ResampleInterpolator, .readFromFile .Resampler,
        .readFromFile .Transform, .transformPoints], 0)) ∧
    ∀ (rc : Nat) (hasMoving : Bool), ∀ e ∈ (applyTransform rc hasMoving).1,
      e ∉ regLoopEvents := by
  refine ⟨by decide, by decide, ?_⟩
  intro rc hasMoving e he
  by_cases hrc : rc = 0
  · subst hrc
    cases hasMoving
    · exact (by decide : ∀ x ∈ (applyTransform 0 false).1, x ∉ regLoopEvents) e he
    · exact (by decide : ∀ x ∈ (applyTransform 0 true).1, x ∉ regLoopEvents) e he
  · rw [applyTransform, if_pos hrc] at he
    exact (by decide : ∀ x ∈ ExEvent.configureComponents true ::
      beforeAllTransformixTrace, x ∉ regLoopEvents) e he

/-- Witness for the amended C6, instantiating the loop-event exclusion at a
concrete event of the concrete success trace. -/
theorem applyTransform_staged_sequence_witness :
    ExEvent.transformPoints ∉ regLoopEvents ∧
    (applyTransform 0 true).2 = 0 :=
  ⟨applyTransform_staged_sequence.2.2 0 true ExEvent.transformPoints (by decide),
   by rw [applyTransform_staged_sequence.1]⟩

/-- Claim C7: whenever the orchestration run returns 0, the resulting state
has the back-reference of every component instance in every container
cleared, the first created Transform instance designated as the final
transform, and a follow-up orchestrator constructed from that final
transform holds it as its initial transform. -/
theorem run_decouples_and_designates_final_transform (s : TState)
    (beforeAllExitCode : Nat) (registrationThrows : Bool) (s' : TState)
    (h : templateRun s beforeAllExitCode registrationThrows = (some 0, s'))
    (ht : s.containers .Transform ≠ []) :
    (∀ r i, i < (s.containers r).length → s'.backRef r i = false) ∧
    (∃ t, s'.finalTransform = some t ∧
      (s.containers .Transform).head? = some t ∧
      (mkChainedMain t).initialTransform = some t) := by
  rw [templateRun] at h
  by_cases hb : beforeAllExitCode ≠ 0
  · rw [if_pos hb] at h
    exact absurd (congrArg Prod.fst h) (by simp [hb])
  · rw [if_neg hb] at h
    by_cases hr : registrationThrows
    · rw [if_pos hr] at h
      exact absurd (congrArg Prod.fst h) (by simp)
    · rw [if_neg hr] at h
      have hs' : s' = configureComponentsState false
          { configureComponentsState true s with
            finalTransform := ((configureComponentsState true s).containers .Transform).head? } := by
        have := congrArg Prod.snd h
        simpa using this.symm
      subst hs'
      constructor
      · intro r i hi
        simp [configureComponentsState, hi]
      · obtain ⟨t, rest, hcons⟩ := List.exists_cons_of_ne_nil ht
        refine ⟨t, ?_, ?_, rfl⟩
        · simp [configureComponentsState, hcons]
        · simp [hcons]

/-- Witness for C7 at a concrete aggregate with two transforms and one
registration, all initially coupled. -/
theorem run_decouples_witness :
    (templateRun
      ⟨fun r => if r = .Transform then [⟨"TransformA"⟩, ⟨"TransformB"⟩]
        else if r = .Registration then [⟨"RegA"⟩] else [],
       fun _ _ => true, none⟩ 0 false).2.backRef .Transform 0 = false ∧
    (templateRun
      ⟨fun r => if r = .Transform then [⟨"TransformA"⟩, ⟨"TransformB"⟩]
        else if r = .Registration then [⟨"RegA"⟩] else [],
       fun _ _ => true, none⟩ 0 false).2.finalTransform = some ⟨"TransformA"⟩ := by
  have h := run_decouples_and_designates_final_transform
    ⟨fun r => if r = .Transform then [⟨"TransformA"⟩, ⟨"TransformB"⟩]
      else if r = .Registration then [⟨"RegA"⟩] else [],
     fun _ _ => true, none⟩ 0 false
    (templateRun
      ⟨fun r => if r = .Transform then [⟨"TransformA"⟩, ⟨"TransformB"⟩]
        else if r = .Registration then [⟨"RegA"⟩] else [],
       fun _ _ => true, none⟩ 0 false).2 rfl (by simp)
  refine ⟨h.1 .Transform 0 (by simp), ?_⟩
  obtain ⟨t, hft, hhd, -⟩ := h.2
  rw [hft]
  simp at hhd
  rw [hhd]

/-- Appending strings appends their character data. -/
theorem string_mk_append (a b : List Char) :
    String.mk a ++ String.mk b = String.mk (a ++ b) :=
  rfl

/-- Prepending the zero character via string append. -/
theorem zero_string_append (b : List Char) :
    "0" ++ String.mk b = String.mk ('0' :: b) :=
  rfl

/-- The decimal rendering of a number in the decade `[10^d, 10^(d+1))` has
exactly `d + 1` characters (for any sufficient recursion bound). -/
theorem decReprAux_len :
    ∀ d n fuel, n < fuel → 10 ^ d ≤ n → n < 10 ^ (d + 1) →
      (decReprAux fuel n).length = d + 1 := by
  intro d
  induction d with
  | zero =>
    intro n fuel hf h1 h2
    cases fuel with
    | zero => omega
    | succ f =>
      have h10 : n < 10 := by
        have hp : (10 : Nat) ^ (0 + 1) = 10 := by norm_num
        omega
      simp only [decReprAux, if_pos h10]
      simp [String.length_mk]
  | succ d ih =>
    intro n fuel hf h1 h2
    have hge : 10 ≤ n := by
      have hp : (10 : Nat) ^ 1 ≤ 10 ^ (d + 1) := Nat.pow_le_pow_right (by norm_num) (by omega)
      have hp1 : (10 : Nat) ^ 1 = 10 := by norm_num
      omega
    cases fuel with
    | zero => omega
    | succ f =>
      simp only [decReprAux, if_neg (by omega : ¬ n < 10)]
      rw [String.length_append]
      have hdiv1 : 10 ^ d ≤ n / 10 := by
        rw [Nat.le_div_iff_mul_le (by norm_num)]
        rw [pow_succ] at h1
        exact h1
      have hdiv2 : n / 10 < 10 ^ (d + 1) := by
        rw [Nat.div_lt_iff_lt_mul (by norm_num)]
        rw [pow_succ] at h2
        exact h2
      have hflt : n / 10 < f := by omega
      rw [ih (n / 10) f hflt hdiv1 hdiv2]
      simp [String.length_mk]

/-- The decimal rendering of a number in decade `d` has `d + 1` characters. -/
theorem decRepr_len (d n : Nat) (h1 : 10 ^ d ≤ n) (h2 : n < 10 ^ (d + 1)) :
    (decRepr n).length = d + 1 :=
  decReprAux_len d n (n + 1) (Nat.lt_succ_self n) h1 h2

/-- The zero-printing loop started at border `10 ^ k` on a counter in decade
`d ≤ k` prints exactly `k - d` zeros (for any sufficient recursion bound). -/
theorem padLoopAux_pow :
    ∀ k d n depth, k < depth → 10 ^ d ≤ n → n < 10 ^ (d + 1) → d ≤ k →
      padLoopAux depth (10 ^ k) n = String.mk (List.replicate (k - d) '0') := by
  intro k
  induction k with
  | zero =>
    intro d n depth hdep h1 h2 hdk
    cases depth with
    | zero => omega
    | succ dep =>
      have hd0 : d = 0 := by omega
      subst hd0
      simp only [padLoopAux, pow_zero, Nat.sub_self, List.replicate_zero]
      rw [if_neg (by omega : ¬ (1 : Nat) < 1)]
  | succ k ih =>
    intro d n depth hdep h1 h2 hdk
    cases depth with
    | zero => omega
    | succ dep =>
      have hb : 1 < 10 ^ (k + 1) := by
        have hp : (10 : Nat) ^ 1 ≤ 10 ^ (k + 1) := Nat.pow_le_pow_right (by norm_num) (by omega)
        have hp1 : (10 : Nat) ^ 1 = 10 := by norm_num
        omega
      by_cases hd : d = k + 1
      · subst hd
        simp only [padLoopAux]
        rw [if_pos hb, if_neg (by omega : ¬ n < 10 ^ (k + 1))]
        simp only [Nat.sub_self, List.replicate_zero]
      · have hdk' : d ≤ k := by omega
        have hlt : n < 10 ^ (k + 1) :=
          lt_of_lt_of_le h2 (Nat.pow_le_pow_right (by norm_num) (by omega))
        simp only [padLoopAux]
        rw [if_pos hb, if_pos hlt]
        have hdiv : 10 ^ (k + 1) / 10 = 10 ^ k := by
          rw [pow_succ]
          exact Nat.mul_div_cancel _ (by norm_num)
        rw [hdiv, ih d n dep (by omega) h1 h2 hdk']
        have hsub : k + 1 - d = (k - d) + 1 := by omega
        rw [hsub, List.replicate_succ, zero_string_append]

/-- Claim C8: for every iteration counter below ten million, the iteration
field of the per-iteration snapshot is the counter's decimal rendering
left-padded with zeros to exactly 7 digits, and the snapshot file name has
the form
`<out>TransformParameters.<elastixLevel>.R<resolutionLevel>.It<7-digit-counter>.txt`. -/
theorem snapshot_file_name_seven_digits (n : Nat) (h : n < 10 ^ 7) :
    makeIterationString n = sevenDigitPad n ∧
    (makeIterationString n).length = 7 ∧
    ∀ outDir elastixLevel resolutionLevel,
      iterationSnapshotFileName outDir elastixLevel resolutionLevel n =
        outDir ++ "TransformParameters." ++ decRepr elastixLevel ++ ".R" ++
          decRepr resolutionLevel ++ ".It" ++ sevenDigitPad n ++ ".txt" := by
  have key : makeIterationString n = sevenDigitPad n ∧
      (makeIterationString n).length = 7 := by
    by_cases h0 : n = 0
    · subst h0
      exact ⟨by decide, by decide⟩
    · obtain ⟨d, hd1, hd2⟩ : ∃ d, 10 ^ d ≤ n ∧ n < 10 ^ (d + 1) :=
        ⟨Nat.log 10 n, Nat.pow_log_le_self 10 h0,
         Nat.lt_pow_succ_log_self (by norm_num) n⟩
      have hd6 : d ≤ 6 := by
        by_contra hcon
        have : (10 : Nat) ^ 7 ≤ 10 ^ d := Nat.pow_le_pow_right (by norm_num) (by omega)
        omega
      have hlen : (decRepr n).length = d + 1 := decRepr_len d n hd1 hd2
      have hpad : padLoopAux 7 1000000 n = String.mk (List.replicate (6 - d) '0') := by
        have h66 : (1000000 : Nat) = 10 ^ 6 := by norm_num
        rw [h66]
        exact padLoopAux_pow 6 d n 7 (by omega) hd1 hd2 hd6
      constructor
      · rw [makeIterationString, sevenDigitPad, hpad, hlen]
        have : 7 - (d + 1) = 6 - d := by omega
        rw [this]
      · rw [makeIterationString, String.length_append, hpad, hlen,
          String.length_mk, List.length_replicate]
        omega
  refine ⟨key.1, key.2, ?_⟩
  intro outDir elastixLevel resolutionLevel
  rw [iterationSnapshotFileName, key.1]

/-- Witness for C8 at counter 123: the iteration field is `0000123`. -/
theorem snapshot_file_name_seven_digits_witness :
    makeIterationString 123 = "0000123" ∧
    (makeIterationString 123).length = 7 := by
  have h := snapshot_file_name_seven_digits 123 (by norm_num)
  refine ⟨?_, h.2.1⟩
  rw [h.1]
  decide

end Elastix
